import Mathlib

/-!
Verification of the rpy2/fable forecasting notebook
(`rpy2_forecasting_with_fable.py`).

The notebook is a linear pipeline: the `aus_retail` tsibble is converted to an
R data frame, its `Month` column is cast from `yearmonth` to a datetime, the
frame is marshalled to pandas, filtered on `State` and `Industry`, marshalled
back, re-cast to `yearmonth`, re-tagged as a tsibble keyed by
`State`/`Industry` with index `Month`, fitted with three fable models and
forecast two years ahead, after which the 95% interval is unpacked, columns
are selected, and the result is marshalled back to pandas.

The shallow embedding below models tables as lists of records, with the
temporal column carried as a tagged value (`yearmonth` period vs. datetime
timestamp), mirroring the type relabelling performed at every conversion
boundary in the notebook.
-/

/-- A calendar datetime as produced by `lubridate::as_datetime` applied to a
`tsibble::yearmonth` value: first day of the month, midnight. -/
structure DateTime where
  year : Nat
  month : Nat
  day : Nat
  sec : Nat
deriving DecidableEq, Repr

/-- The tagged logical type of the temporal `Month` column: either a
`tsibble` `yearmonth` calendar period (months since January 1970) or a
generic datetime timestamp. -/
inductive TimeVal where
  | ym (m : Nat)
  | dt (d : DateTime)
deriving DecidableEq, Repr

/-- A row of the retail dataset, following the spec's dataset schema:
region name (`State`), industry category (`Industry`), monthly period
(`Month`), turnover value (`Turnover`). -/
structure Row where
  State : String
  Industry : String
  Month : TimeVal
  Turnover : Rat
deriving DecidableEq, Repr

/-- A tsibble: a table of rows together with its index column name and its
key column names, as set by `tsibble.as_tsibble(..., index="Month",
key=["State", "Industry"])`. -/
structure Tsibble where
  rows : List Row
  index : String
  key : List String
deriving DecidableEq, Repr

/-- The call `base.as_data_frame`: drops the tsibble tagging, keeping the rows
(source line 70 and line 127). -/
def as_data_frame (t : Tsibble) : List Row := t.rows

/-- The cast `lubridate::as_datetime` on a `yearmonth` value: the first instant of
that calendar month (source lines 74 and 129). -/
def as_datetime : TimeVal → TimeVal
  | .ym m => .dt ⟨1970 + m / 12, m % 12 + 1, 1, 0⟩
  | .dt d => .dt d

/-- The cast `tsibble::yearmonth` on a datetime: the calendar month containing the
timestamp (source line 97). -/
def yearmonth : TimeVal → TimeVal
  | .dt d => .ym ((d.year - 1970) * 12 + (d.month - 1))
  | .ym m => .ym m

/-- The call `dplyr::mutate(Month = f(Month))`: rewrites the temporal column of every
row, leaving all other columns untouched (source lines 74, 97, 129). -/
def mutateMonth (f : TimeVal → TimeVal) (rows : List Row) : List Row :=
  rows.map fun r => { r with Month := f r.Month }

/-- The call `ro.conversion.rpy2py` under `pandas2ri.converter`: marshalling an R data
frame to a pandas data frame carries every cell value across unchanged
(source lines 78 and 133). -/
def rpy2py (rows : List Row) : List Row := rows

/-- The call `ro.conversion.py2rpy` under `pandas2ri.converter`: marshalling a pandas
data frame to an R data frame carries every cell value across unchanged
(source line 92). -/
def py2rpy (rows : List Row) : List Row := rows

/-- The two `State` values of the pandas filter (source line 84). -/
def stateFilterVals : List String := ["New South Wales", "Victoria"]

/-- The `Industry` value list of the pandas filter (source line 85). -/
def industryFilterVals : List String := ["Department stores"]

/-- The boolean mask of the pandas filtering cell:
`State.isin(["New South Wales", "Victoria"]) & Industry.isin(["Department stores"])`
(source lines 83-85). -/
def pandasFilterPred (r : Row) : Bool :=
  stateFilterVals.contains r.State && industryFilterVals.contains r.Industry

/-- The pandas boolean-mask row selection of source lines 83-85. -/
def filterStates (rows : List Row) : List Row := rows.filter pandasFilterPred

/-- The key-and-index triple of a row: `(State, Industry, Month)`. -/
def keyIndexOf (r : Row) : String × String × TimeVal := (r.State, r.Industry, r.Month)

/-- The call `tsibble.as_tsibble(..., index="Month", key=["State", "Industry"])`
(source lines 96-100): re-tags the rows as a time-series table.  `tsibble`
validates that the key-index combination identifies each row; on duplicate
`(State, Industry, Month)` triples it raises, modelled here as `none`. -/
def as_tsibble (rows : List Row) : Option Tsibble :=
  if (rows.map keyIndexOf).Nodup then some ⟨rows, "Month", ["State", "Industry"]⟩
  else none

/-- The conversion chain R tsibble → R data frame → datetime `Month` →
pandas (source lines 70-78). -/
def toPandas (t : Tsibble) : List Row :=
  rpy2py (mutateMonth as_datetime (as_data_frame t))

/-- The conversion chain pandas → R data frame → `yearmonth` `Month` →
tsibble (source lines 91-100). -/
def fromPandas (rows : List Row) : Option Tsibble :=
  as_tsibble (mutateMonth yearmonth (py2rpy rows))

/-- A `Month` value that is a `yearmonth` calendar period. -/
def TimeVal.isYM : TimeVal → Prop
  | .ym _ => True
  | .dt _ => False

instance : DecidablePred TimeVal.isYM := fun v => by
  cases v <;> simp [TimeVal.isYM] <;> infer_instance

/-- The non-temporal cells of a dataset row. -/
def nonTemporal (r : Row) : String × String × Rat := (r.State, r.Industry, r.Turnover)

/-! ## The native R cell and the Python-orchestrated model step -/

/-- The row predicate of the native R cell's filter:
`State %in% c("New South Wales", "Victoria"), Industry == "Department stores"`
(source lines 14-17). -/
def rNativePred (r : Row) : Bool :=
  (["New South Wales", "Victoria"] : List String).contains r.State &&
    r.Industry == "Department stores"

/-- The native R pipeline's model input: `aus_retail` filtered, still a
tsibble keyed by `State`/`Industry` with index `Month` (source lines 13-17;
`dplyr::filter` on a tsibble keeps its index and keys). -/
def rNativeModelInput (t : Tsibble) : Tsibble :=
  ⟨t.rows.filter rNativePred, t.index, t.key⟩

/-- The Python-orchestrated pipeline's model input: the dataset converted to
pandas, filtered, and converted back to a tsibble (source lines 70-100). -/
def pyModelInput (t : Tsibble) : Option Tsibble :=
  fromPandas (filterStates (toPandas t))

/-- The transformation applied to `Turnover` inside a model formula. -/
inductive Transformation where
  | boxCox (l : Rat)
  | logTr
  | identityTr
deriving DecidableEq, Repr

/-- A named fable model specification, as passed to `fabletools.model` /
`model(...)`: a name, a model family, a response variable and its
transformation. -/
structure ModelSpec where
  name : String
  family : String
  response : String
  transform : Transformation
deriving DecidableEq, Repr

/-- The three model specifications of the Python-orchestrated run:
`ets=ETS(box_cox(Turnover, 0.3))`, `arima = ARIMA(log(Turnover))`,
`snaive = SNAIVE(Turnover)` (source lines 112-117). -/
def pyModelSpecs : List ModelSpec :=
  [⟨"ets", "ETS", "Turnover", .boxCox (3 / 10)⟩,
   ⟨"arima", "ARIMA", "Turnover", .logTr⟩,
   ⟨"snaive", "SNAIVE", "Turnover", .identityTr⟩]

/-- The three model specifications of the native R cell:
`ets = ETS(box_cox(Turnover, 0.3))`, `arima = ARIMA(log(Turnover))`,
`snaive = SNAIVE(Turnover)` (source lines 18-22). -/
def rNativeModelSpecs : List ModelSpec :=
  [⟨"ets", "ETS", "Turnover", .boxCox (3 / 10)⟩,
   ⟨"arima", "ARIMA", "Turnover", .logTr⟩,
   ⟨"snaive", "SNAIVE", "Turnover", .identityTr⟩]

/-! ## The forecast step and its output schema -/

/-- The forecast horizon: `h = "2 years"` of monthly data is 24 periods
(source lines 23 and 122). -/
def horizonMonths : Nat := 24

/-- A forecast distribution for one key, model and period, summarised by the
parameters the pipeline extracts: the point forecast `.mean` and the scale
of the distribution (nonnegative). -/
structure FcDist where
  mean : Rat
  scale : Rat
deriving DecidableEq, Repr

/-- A fitting oracle: the estimation performed inside `fabletools`, treated
as an opaque deterministic map from (key, model name, forecast period) to a
forecast distribution.  The estimation algorithms are external to this
repository. -/
def FitOracle : Type := (String × String) → String → Nat → FcDist

/-- The value `qnorm(0.975)`, the normal quantile used for a 95% central interval,
modelled at two decimals. -/
def z95 : Rat := 196 / 100

/-- The calls `distributional.hilo(..., level=95.0)` followed by
`fabletools.unpack_hilo(..., "95%")` (source lines 124-125): the lower and
upper bounds of the central 95% interval of a forecast distribution,
`mean ∓ z * scale`. -/
def hilo95 (d : FcDist) : Rat × Rat := (d.mean - z95 * d.scale, d.mean + z95 * d.scale)

/-- A row of the final forecast table `forecast_pdf`: the six selected
columns `State`, `Industry`, `.model`, `.mean`, `95%_lower`, `95%_upper`
plus the temporal column `Month` (source lines 127-133). -/
structure FcRow where
  State : String
  Industry : String
  model : String
  Month : TimeVal
  mean : Rat
  lower95 : Rat
  upper95 : Rat
deriving DecidableEq, Repr

/-- The distinct key combinations of a tsibble: `fabletools.model` fits each
model once per `(State, Industry)` key. -/
def keysOf (t : Tsibble) : List (String × String) :=
  (t.rows.map fun r => (r.State, r.Industry)).dedup

/-- The last `yearmonth` period present in a tsibble's rows (0 when a row's
`Month` is not a period). -/
def lastMonthOf (t : Tsibble) : Nat :=
  (t.rows.map fun r => match r.Month with | .ym m => m | .dt _ => 0).foldr max 0

/-- Modelled from the spec: `fabletools.forecast(r_models, h="2 years")`
followed by interval extraction and column selection (source lines 122-129).
The estimation internals are external; per the spec the forecast step
produces, for each `(State, Industry)` key and each named model, one row per
forecast period over the 24-month horizon, carrying the mean and the
unpacked 95% bounds.  The `Month` column is retained through the
`select` because `tsibble`'s column selection always keeps the index.
This definition gives the block of 24 rows for one key and one model. -/
def seriesRows (fit : FitOracle) (k : String × String) (s : ModelSpec)
    (lastM : Nat) : List FcRow :=
  (List.range horizonMonths).map fun i =>
    let m := lastM + 1 + i
    let d := fit k s.name m
    ⟨k.1, k.2, s.name, .ym m, d.mean, (hilo95 d).1, (hilo95 d).2⟩

/-- The forecast rows for one key: one block of 24 rows per model. -/
def keyRows (fit : FitOracle) (k : String × String) (specs : List ModelSpec)
    (lastM : Nat) : List FcRow :=
  specs.flatMap fun s => seriesRows fit k s lastM

/-- All forecast rows: one block per key. -/
def forecastRows (fit : FitOracle) (keys : List (String × String))
    (specs : List ModelSpec) (lastM : Nat) : List FcRow :=
  keys.flatMap fun k => keyRows fit k specs lastM

/-- The full forecast table of the Python-orchestrated pipeline, prior to
the final `Month` datetime cast and pandas marshalling (which touch no other
column). -/
def forecastOutput (fit : FitOracle) (t : Tsibble) : List FcRow :=
  forecastRows fit (keysOf t) pyModelSpecs (lastMonthOf t)

/-- The `(State, Industry, .model, Month)` quadruple of a forecast row. -/
def quadOf (r : FcRow) : String × String × String × TimeVal :=
  (r.State, r.Industry, r.model, r.Month)

/-- The `(State, Industry, model, period)` combinations the forecast step
produces: every key, crossed with every model name, crossed with the 24
periods following the last observed month. -/
def expectedQuads (keys : List (String × String)) (names : List String)
    (lastM : Nat) : List (String × String × String × TimeVal) :=
  keys.flatMap fun k =>
    names.flatMap fun n =>
      (List.range horizonMonths).map fun i => (k.1, k.2, n, .ym (lastM + 1 + i))

/-- The column list passed to `select` (source line 127). -/
def sixSelectedColumns : List String :=
  ["State", "Industry", ".model", ".mean", "95%_lower", "95%_upper"]

/-- The column set of `forecast_pdf`: the six selected columns plus the
index column `Month`, which `tsibble`'s `select` retains (the notebook
itself relies on this at source line 129, where it mutates `Month` after
the selection). -/
def forecastPdfColumns : List String := sixSelectedColumns ++ ["Month"]

/-- The column set of the dataset in every tabular representation, per the
spec's dataset schema. -/
def datasetColumns : List String := ["State", "Industry", "Month", "Turnover"]

/-! ## The pipeline with fallible external calls (error handling) -/

/-- The external calls the notebook makes, each fallible: the interop
bridge or the R library may raise.  The field order follows the source
(lines 70-133); types of the opaque intermediate values (`mable`,
`fable`) are parameters. -/
structure Bridge (ε μ φ : Type) where
  asDataFrameC : Tsibble → Except ε (List Row)
  mutateDatetimeC : List Row → Except ε (List Row)
  rpy2pyC : List Row → Except ε (List Row)
  filterC : List Row → Except ε (List Row)
  py2rpyC : List Row → Except ε (List Row)
  asTsibbleC : List Row → Except ε Tsibble
  modelC : Tsibble → Except ε μ
  forecastC : μ → Except ε φ
  hiloC : φ → Except ε φ
  unpackHiloC : φ → Except ε φ
  selectC : φ → Except ε (List FcRow)
  mutateDatetime2C : List FcRow → Except ε (List FcRow)
  rpy2py2C : List FcRow → Except ε (List FcRow)

/-- The notebook's pipeline as a straight-line sequence of its external
calls (source lines 70-133).  There is no `try`/`except` anywhere in the
notebook, so each call's result feeds the next directly; `Except.bind`
short-circuits on the first error. -/
def notebookPipeline {ε μ φ : Type} (b : Bridge ε μ φ) (t0 : Tsibble) :
    Except ε (List FcRow) :=
  (b.asDataFrameC t0).bind fun x1 =>
  (b.mutateDatetimeC x1).bind fun x2 =>
  (b.rpy2pyC x2).bind fun x3 =>
  (b.filterC x3).bind fun x4 =>
  (b.py2rpyC x4).bind fun x5 =>
  (b.asTsibbleC x5).bind fun x6 =>
  (b.modelC x6).bind fun x7 =>
  (b.forecastC x7).bind fun x8 =>
  (b.hiloC x8).bind fun x9 =>
  (b.unpackHiloC x9).bind fun x10 =>
  (b.selectC x10).bind fun x11 =>
  (b.mutateDatetime2C x11).bind fun x12 =>
  b.rpy2py2C x12

/-! ## Notebook cells and their observable side effects -/

/-- An observable side effect of executing a notebook cell beyond the
in-memory session: network access or a write to the file system. -/
inductive CellEffect where
  | networkAccess
  | fileWrite
deriving DecidableEq, Repr

/-- A notebook cell: its title and the side effects its execution has
beyond the transient runtime session. -/
structure NotebookCell where
  title : String
  effects : List CellEffect
deriving DecidableEq, Repr

/-- The cells of the notebook in order, with their effects as read off the
source.  Every cell is in-memory computation and display, except the
`%pip install rpy2` cell (source line 43), which downloads the package from
the package index (network access) and installs it into the environment
(a file-system write that persists beyond the session). -/
def notebookCells : List NotebookCell :=
  [⟨"r_native_example", []⟩,
   ⟨"r_show_aus_retail", []⟩,
   ⟨"pip_install_rpy2", [.networkAccess, .fileWrite]⟩,
   ⟨"python_imports", []⟩,
   ⟨"import_r_packages", []⟩,
   ⟨"convert_r_to_pandas", []⟩,
   ⟨"filter_states_industries", []⟩,
   ⟨"convert_back_to_tsibble", []⟩,
   ⟨"print_rts", []⟩,
   ⟨"train_models", []⟩,
   ⟨"forecast_and_extract", []⟩,
   ⟨"display_forecast", []⟩]

/-! ## Determinism -/

/-- Ambient state a run could in principle observe: a random seed and a
clock.  The notebook's pipeline consults neither — the source contains no
call to a random-number generator or to the clock, and fable's estimation
and forecasting are deterministic optimisation. -/
structure World where
  seed : Nat
  clock : Nat

/-- One run of the Python-orchestrated pipeline over a dataset in an
ambient world: conversion, filter, re-tagging, fit and forecast (source
lines 70-133).  The world is never consulted. -/
def runNotebook (fit : FitOracle) (t : Tsibble) (_w : World) : Option (List FcRow) :=
  (pyModelInput t).map fun rts => forecastOutput fit rts

/-- The final forecast table `forecast_pdf`: the forecast rows with `Month`
cast back to datetime and marshalled to pandas (source lines 129-133). -/
def mutateFcMonth (f : TimeVal → TimeVal) (rows : List FcRow) : List FcRow :=
  rows.map fun r => { r with Month := f r.Month }

/-- The call `ro.conversion.rpy2py` on the forecast data frame (source line 133):
marshalling carries every cell value across unchanged. -/
def rpy2pyFc (rows : List FcRow) : List FcRow := rows

/-- The non-temporal cells of a forecast row. -/
def nonTemporalFc (r : FcRow) : String × String × String × Rat × Rat × Rat :=
  (r.State, r.Industry, r.model, r.mean, r.lower95, r.upper95)

/-- Whether a forecast row belongs to key `k` and model `n`. -/
def matchesKM (k : String × String) (n : String) (r : FcRow) : Bool :=
  r.State == k.1 && r.Industry == k.2 && r.model == n

/-- The model names of the Python-orchestrated run. -/
def modelNames : List String := pyModelSpecs.map fun s => s.name

/-- A two-key sample dataset shaped like `aus_retail` after the filter. -/
def sampleTsibble : Tsibble :=
  ⟨[⟨"New South Wales", "Department stores", .ym 144, 105⟩,
    ⟨"New South Wales", "Department stores", .ym 145, 107⟩,
    ⟨"Victoria", "Department stores", .ym 144, 89⟩,
    ⟨"Victoria", "Department stores", .ym 145, 91⟩],
   "Month", ["State", "Industry"]⟩

/-- A sample dataset with rows outside the filtered states/industries. -/
def sampleRows : List Row :=
  [⟨"New South Wales", "Department stores", .ym 144, 105⟩,
   ⟨"Queensland", "Department stores", .ym 144, 50⟩,
   ⟨"Victoria", "Takeaway food services", .ym 144, 60⟩,
   ⟨"Victoria", "Department stores", .ym 144, 89⟩]

/-- A constant fitting oracle for concrete evaluation. -/
def constFit : FitOracle := fun _ _ _ => ⟨100, 5⟩

/-- A sample forecast-table row for concrete evaluation. -/
def fcSample : List FcRow :=
  [⟨"Victoria", "Department stores", "ets", .ym 145, 100, 90, 110⟩]

/-- A one-key sample dataset for concrete forecast evaluation. -/
def tinyT : Tsibble :=
  ⟨[⟨"Victoria", "Department stores", .ym 144, 89⟩], "Month", ["State", "Industry"]⟩

/-- The first forecast row produced over `tinyT` by the constant oracle. -/
def rW : FcRow :=
  ⟨"Victoria", "Department stores", "ets", .ym 145, 100, 100 - z95 * 5, 100 + z95 * 5⟩

/-- The key-field adjustment a `Month` re-cast performs on the key-index
triple of a row. -/
def keyAdj (f : TimeVal → TimeVal) (p : String × String × TimeVal) :
    String × String × TimeVal :=
  (p.1, p.2.1, f p.2.2)

/-- A concrete bridge whose first external call (the tsibble-to-data-frame
conversion) raises, every other call succeeding. -/
def failBridge : Bridge String Unit Unit :=
  ⟨fun _ => .error "RRuntimeError",
   fun rs => .ok rs,
   fun rs => .ok rs,
   fun rs => .ok (filterStates rs),
   fun rs => .ok rs,
   fun rs => .ok ⟨rs, "Month", ["State", "Industry"]⟩,
   fun _ => .ok (),
   fun _ => .ok (),
   fun u => .ok u,
   fun u => .ok u,
   fun _ => .ok [],
   fun rs => .ok rs,
   fun rs => .ok rs⟩

/-! ## Helper lemmas -/

theorem ym_round_trip (m : Nat) : yearmonth (as_datetime (.ym m)) = .ym m := by
  simp only [as_datetime, yearmonth, TimeVal.ym.injEq]
  omega

theorem as_datetime_inj {a b : TimeVal} (ha : a.isYM) (hb : b.isYM)
    (h : as_datetime a = as_datetime b) : a = b := by
  cases a with
  | dt d => exact absurd ha (by simp [TimeVal.isYM])
  | ym m =>
    cases b with
    | dt d => exact absurd hb (by simp [TimeVal.isYM])
    | ym m' =>
      have := congrArg yearmonth h
      rwa [ym_round_trip, ym_round_trip] at this

theorem mutate_round_trip (rows : List Row) (h : ∀ r ∈ rows, r.Month.isYM) :
    mutateMonth yearmonth (mutateMonth as_datetime rows) = rows := by
  unfold mutateMonth
  rw [List.map_map]
  conv_rhs => rw [← List.map_id rows]
  apply List.map_congr_left
  intro r hr
  have hm := h r hr
  cases hv : r.Month with
  | ym m =>
    simp only [Function.comp, id, hv, ym_round_trip]
    rw [← hv]
  | dt d =>
    rw [hv] at hm
    exact absurd hm (by simp [TimeVal.isYM])

theorem mutate_filter_comm (f : TimeVal → TimeVal) (rows : List Row) :
    filterStates (mutateMonth f rows) = mutateMonth f (filterStates rows) := by
  unfold filterStates mutateMonth
  rw [List.filter_map]
  rfl

theorem toPandas_eq (t : Tsibble) :
    toPandas t = mutateMonth as_datetime t.rows := rfl

theorem filtered_model_input (t : Tsibble) (hym : ∀ r ∈ t.rows, r.Month.isYM) :
    pyModelInput t = as_tsibble (t.rows.filter pandasFilterPred) := by
  unfold pyModelInput fromPandas
  rw [toPandas_eq]
  unfold py2rpy
  rw [mutate_filter_comm]
  unfold filterStates
  rw [mutate_round_trip]
  intro r hr
  exact hym r (List.filter_sublist t.rows |>.mem hr)

theorem keys_nodup_filter (t : Tsibble) (hnd : (t.rows.map keyIndexOf).Nodup) :
    ((t.rows.filter pandasFilterPred).map keyIndexOf).Nodup :=
  ((List.filter_sublist t.rows).map keyIndexOf).nodup hnd

/-! ## Claim theorems -/

/-- C1: converting a tsibble keyed by `State`/`Industry` with a monthly
period index to the generic tabular representation (R data frame with
`Month` cast to datetime, then pandas) and back (pandas → R data frame,
`Month` re-cast to `yearmonth`, re-tagged with index `Month` and keys
`State`, `Industry`) preserves the row count, the column set, and every
non-temporal value exactly, and reconstructs the temporal column to the
original calendar period: the round trip is the identity on the table. -/
theorem C1_round_trip (t : Tsibble)
    (hym : ∀ r ∈ t.rows, r.Month.isYM)
    (hnd : (t.rows.map keyIndexOf).Nodup)
    (hidx : t.index = "Month") (hkey : t.key = ["State", "Industry"]) :
    (toPandas t).length = t.rows.length ∧
    (toPandas t).map nonTemporal = t.rows.map nonTemporal ∧
    fromPandas (toPandas t) = some t := by
  refine ⟨?_, ?_, ?_⟩
  · rw [toPandas_eq]; exact List.length_map _ _
  · rw [toPandas_eq]
    unfold mutateMonth
    rw [List.map_map]
    rfl
  · unfold fromPandas
    rw [toPandas_eq]
    unfold py2rpy
    rw [mutate_round_trip t.rows hym]
    unfold as_tsibble
    rw [if_pos hnd]
    obtain ⟨rows, index, key⟩ := t
    simp only at hidx hkey
    rw [hidx, hkey]

/-- Witness for C1 at a concrete two-key monthly table. -/
theorem C1_round_trip_witness : fromPandas (toPandas sampleTsibble) = some sampleTsibble :=
  (C1_round_trip sampleTsibble (by decide) (by decide) rfl rfl).2.2

/-- C3: after the filtering step, every remaining row has `State` equal to
"New South Wales" or "Victoria" and `Industry` equal to
"Department stores", and no row of the input whose `State` and `Industry`
match those values is dropped. -/
theorem C3_filter (rows : List Row) :
    (∀ r ∈ filterStates rows,
      (r.State = "New South Wales" ∨ r.State = "Victoria") ∧
        r.Industry = "Department stores") ∧
    (∀ r ∈ rows, (r.State = "New South Wales" ∨ r.State = "Victoria") →
      r.Industry = "Department stores" → r ∈ filterStates rows) := by
  constructor
  · intro r hr
    rw [filterStates, List.mem_filter] at hr
    obtain ⟨-, hp⟩ := hr
    simpa [pandasFilterPred, stateFilterVals, industryFilterVals] using hp
  · intro r hr hs hi
    rw [filterStates, List.mem_filter]
    refine ⟨hr, ?_⟩
    simp [pandasFilterPred, stateFilterVals, industryFilterVals, hs, hi]

/-- Witness for C3 at a concrete mixed-state row list. -/
theorem C3_filter_witness :
    (⟨"Victoria", "Department stores", .ym 144, 89⟩ : Row) ∈ filterStates sampleRows :=
  (C3_filter sampleRows).2 ⟨"Victoria", "Department stores", .ym 144, 89⟩
    (by decide) (by decide) (by decide)

theorem keys_nodup_mutate_dt (rows : List Row) (hym : ∀ r ∈ rows, r.Month.isYM)
    (hnd : (rows.map keyIndexOf).Nodup) :
    ((mutateMonth as_datetime rows).map keyIndexOf).Nodup := by
  unfold mutateMonth
  rw [List.map_map]
  have hc : (keyIndexOf ∘ fun r => { r with Month := as_datetime r.Month }) =
      keyAdj as_datetime ∘ keyIndexOf := rfl
  rw [hc, ← List.map_map]
  refine List.Nodup.map_on ?_ hnd
  intro x hx y hy hxy
  obtain ⟨rx, hrx, hrxe⟩ := List.mem_map.mp hx
  obtain ⟨ry, hry, hrye⟩ := List.mem_map.mp hy
  obtain ⟨x1, x2, x3⟩ := x
  obtain ⟨y1, y2, y3⟩ := y
  simp only [keyAdj, Prod.mk.injEq] at hxy
  obtain ⟨h1, h2, h3⟩ := hxy
  have hx3 : x3.isYM := by
    have : rx.Month = x3 := congrArg (fun p => p.2.2) hrxe
    rw [← this]; exact hym rx hrx
  have hy3 : y3.isYM := by
    have : ry.Month = y3 := congrArg (fun p => p.2.2) hrye
    rw [← this]; exact hym ry hry
  exact Prod.ext h1 (Prod.ext h2 (as_datetime_inj hx3 hy3 h3))

/-- C5: every format-conversion step of the pipeline (tsibble → data frame,
data frame → pandas, pandas → data frame, data frame → tsibble, and the
forecast-table conversions) leaves all rows and all columns other than the
temporal `Month` column unchanged; only the `Month` column's tagged logical
type is adjusted. -/
theorem C5_conversion_steps (t : Tsibble) (rows : List Row) (ts : Tsibble)
    (fc : List FcRow) :
    as_data_frame t = t.rows ∧
    rpy2py rows = rows ∧
    py2rpy rows = rows ∧
    ((mutateMonth as_datetime rows).length = rows.length ∧
      (mutateMonth as_datetime rows).map nonTemporal = rows.map nonTemporal ∧
      (mutateMonth as_datetime rows).map (fun r => r.Month) =
        rows.map fun r => as_datetime r.Month) ∧
    ((mutateMonth yearmonth rows).length = rows.length ∧
      (mutateMonth yearmonth rows).map nonTemporal = rows.map nonTemporal ∧
      (mutateMonth yearmonth rows).map (fun r => r.Month) =
        rows.map fun r => yearmonth r.Month) ∧
    (as_tsibble rows = some ts → ts.rows = rows) ∧
    ((mutateFcMonth as_datetime fc).length = fc.length ∧
      (mutateFcMonth as_datetime fc).map nonTemporalFc = fc.map nonTemporalFc ∧
      (mutateFcMonth as_datetime fc).map (fun r => r.Month) =
        fc.map fun r => as_datetime r.Month) ∧
    rpy2pyFc fc = fc := by
  refine ⟨rfl, rfl, rfl, ⟨List.length_map _ _, ?_, ?_⟩,
    ⟨List.length_map _ _, ?_, ?_⟩, ?_, ⟨List.length_map _ _, ?_, ?_⟩, rfl⟩
  · unfold mutateMonth; rw [List.map_map]; rfl
  · unfold mutateMonth; rw [List.map_map]; rfl
  · unfold mutateMonth; rw [List.map_map]; rfl
  · unfold mutateMonth; rw [List.map_map]; rfl
  · intro h
    unfold as_tsibble at h
    split at h
    · cases h; rfl
    · cases h
  · unfold mutateFcMonth; rw [List.map_map]; rfl
  · unfold mutateFcMonth; rw [List.map_map]; rfl

/-- Witness for C5: the tsibble re-tagging at a concrete row list keeps the
rows unchanged. -/
theorem C5_conversion_steps_witness :
    (⟨sampleRows, "Month", ["State", "Industry"]⟩ : Tsibble).rows = sampleRows :=
  (C5_conversion_steps sampleTsibble sampleRows
      ⟨sampleRows, "Month", ["State", "Industry"]⟩ fcSample).2.2.2.2.2.1 (by decide)

/-- C6: the Python-orchestrated pipeline selects the same data subset and
specifies the same three named models as the native R cell: the pandas
filter predicate coincides with the R filter predicate, the model
specifications are identical, and over the same historical dataset the two
runs' fitted-model inputs are equal. -/
theorem C6_same_pipeline_inputs (t : Tsibble)
    (hym : ∀ r ∈ t.rows, r.Month.isYM)
    (hnd : (t.rows.map keyIndexOf).Nodup)
    (hidx : t.index = "Month") (hkey : t.key = ["State", "Industry"]) :
    (∀ r : Row, pandasFilterPred r = rNativePred r) ∧
    pyModelSpecs = rNativeModelSpecs ∧
    pyModelInput t = some (rNativeModelInput t) := by
  have hpred : ∀ r : Row, pandasFilterPred r = rNativePred r := by
    intro r
    simp only [pandasFilterPred, rNativePred, stateFilterVals, industryFilterVals,
      List.contains_cons, List.contains_nil, Bool.or_false, beq_eq_decide]
  refine ⟨hpred, rfl, ?_⟩
  rw [filtered_model_input t hym]
  unfold rNativeModelInput as_tsibble
  rw [if_pos (keys_nodup_filter t hnd), hidx, hkey,
    List.filter_congr fun r _ => hpred r]

/-- Witness for C6 at a concrete two-key monthly table. -/
theorem C6_same_pipeline_inputs_witness :
    pyModelInput sampleTsibble = some (rNativeModelInput sampleTsibble) :=
  (C6_same_pipeline_inputs sampleTsibble (by decide) (by decide) rfl rfl).2.2

/-- C7: in the re-tagged time-series table produced by `tsibble.as_tsibble`
(and in the original dataset) the `(State, Industry, Month)` triple is
unique per row, and uniqueness is preserved through every conversion step
of the pipeline: after the cast to pandas, after the filter, and in the
re-tagged tsibble handed to the model step. -/
theorem C7_key_uniqueness (rows : List Row) (ts : Tsibble) (t : Tsibble)
    (hym : ∀ r ∈ t.rows, r.Month.isYM)
    (hnd : (t.rows.map keyIndexOf).Nodup) :
    (as_tsibble rows = some ts → (ts.rows.map keyIndexOf).Nodup) ∧
    ((toPandas t).map keyIndexOf).Nodup ∧
    ((filterStates (toPandas t)).map keyIndexOf).Nodup ∧
    (∀ t', pyModelInput t = some t' → (t'.rows.map keyIndexOf).Nodup) := by
  have hretag : ∀ (rs : List Row) (u : Tsibble),
      as_tsibble rs = some u → (u.rows.map keyIndexOf).Nodup := by
    intro rs u h
    unfold as_tsibble at h
    split at h
    · cases h
      assumption
    · cases h
  have hpdf : ((toPandas t).map keyIndexOf).Nodup := by
    rw [toPandas_eq]
    exact keys_nodup_mutate_dt t.rows hym hnd
  refine ⟨hretag rows ts, hpdf, ?_, ?_⟩
  · exact ((List.filter_sublist (toPandas t)).map keyIndexOf).nodup hpdf
  · intro t' h
    rw [filtered_model_input t hym] at h
    exact hretag _ t' h

/-- Witness for C7: the re-tagging of a concrete row list yields unique
key-index triples. -/
theorem C7_key_uniqueness_witness :
    ((⟨sampleRows, "Month", ["State", "Industry"]⟩ : Tsibble).rows.map keyIndexOf).Nodup :=
  (C7_key_uniqueness sampleRows ⟨sampleRows, "Month", ["State", "Industry"]⟩
      sampleTsibble (by decide) (by decide)).1 (by decide)

theorem except_bind_ok {ε α β : Type} (a : α) (f : α → Except ε β) :
    (Except.ok a : Except ε α).bind f = f a := rfl

theorem except_bind_error {ε α β : Type} (e : ε) (f : α → Except ε β) :
    (Except.error e : Except ε α).bind f = .error e := rfl

/-- C8: the notebook contains no error-handling construct: its pipeline is
a straight-line sequence of external calls, and whichever call is the first
to raise, the pipeline raises that same error to the caller uncaught,
producing no partial output (an `Except.error` carries no rows). -/
theorem C8_error_propagation {ε μ φ : Type} (b : Bridge ε μ φ) (t0 : Tsibble) (e : ε) :
    (b.asDataFrameC t0 = .error e → notebookPipeline b t0 = .error e) ∧
    (∀ x1, b.asDataFrameC t0 = .ok x1 →
      b.mutateDatetimeC x1 = .error e → notebookPipeline b t0 = .error e) ∧
    (∀ x1 x2, b.asDataFrameC t0 = .ok x1 → b.mutateDatetimeC x1 = .ok x2 →
      b.rpy2pyC x2 = .error e → notebookPipeline b t0 = .error e) ∧
    (∀ x1 x2 x3, b.asDataFrameC t0 = .ok x1 → b.mutateDatetimeC x1 = .ok x2 →
      b.rpy2pyC x2 = .ok x3 →
      b.filterC x3 = .error e → notebookPipeline b t0 = .error e) ∧
    (∀ x1 x2 x3 x4, b.asDataFrameC t0 = .ok x1 → b.mutateDatetimeC x1 = .ok x2 →
      b.rpy2pyC x2 = .ok x3 → b.filterC x3 = .ok x4 →
      b.py2rpyC x4 = .error e → notebookPipeline b t0 = .error e) ∧
    (∀ x1 x2 x3 x4 x5, b.asDataFrameC t0 = .ok x1 → b.mutateDatetimeC x1 = .ok x2 →
      b.rpy2pyC x2 = .ok x3 → b.filterC x3 = .ok x4 → b.py2rpyC x4 = .ok x5 →
      b.asTsibbleC x5 = .error e → notebookPipeline b t0 = .error e) ∧
    (∀ x1 x2 x3 x4 x5 x6, b.asDataFrameC t0 = .ok x1 → b.mutateDatetimeC x1 = .ok x2 →
      b.rpy2pyC x2 = .ok x3 → b.filterC x3 = .ok x4 → b.py2rpyC x4 = .ok x5 →
      b.asTsibbleC x5 = .ok x6 →
      b.modelC x6 = .error e → notebookPipeline b t0 = .error e) ∧
    (∀ x1 x2 x3 x4 x5 x6 x7, b.asDataFrameC t0 = .ok x1 → b.mutateDatetimeC x1 = .ok x2 →
      b.rpy2pyC x2 = .ok x3 → b.filterC x3 = .ok x4 → b.py2rpyC x4 = .ok x5 →
      b.asTsibbleC x5 = .ok x6 → b.modelC x6 = .ok x7 →
      b.forecastC x7 = .error e → notebookPipeline b t0 = .error e) ∧
    (∀ x1 x2 x3 x4 x5 x6 x7 x8, b.asDataFrameC t0 = .ok x1 → b.mutateDatetimeC x1 = .ok x2 →
      b.rpy2pyC x2 = .ok x3 → b.filterC x3 = .ok x4 → b.py2rpyC x4 = .ok x5 →
      b.asTsibbleC x5 = .ok x6 → b.modelC x6 = .ok x7 → b.forecastC x7 = .ok x8 →
      b.hiloC x8 = .error e → notebookPipeline b t0 = .error e) ∧
    (∀ x1 x2 x3 x4 x5 x6 x7 x8 x9, b.asDataFrameC t0 = .ok x1 →
      b.mutateDatetimeC x1 = .ok x2 →
      b.rpy2pyC x2 = .ok x3 → b.filterC x3 = .ok x4 → b.py2rpyC x4 = .ok x5 →
      b.asTsibbleC x5 = .ok x6 → b.modelC x6 = .ok x7 → b.forecastC x7 = .ok x8 →
      b.hiloC x8 = .ok x9 →
      b.unpackHiloC x9 = .error e → notebookPipeline b t0 = .error e) ∧
    (∀ x1 x2 x3 x4 x5 x6 x7 x8 x9 x10, b.asDataFrameC t0 = .ok x1 →
      b.mutateDatetimeC x1 = .ok x2 →
      b.rpy2pyC x2 = .ok x3 → b.filterC x3 = .ok x4 → b.py2rpyC x4 = .ok x5 →
      b.asTsibbleC x5 = .ok x6 → b.modelC x6 = .ok x7 → b.forecastC x7 = .ok x8 →
      b.hiloC x8 = .ok x9 → b.unpackHiloC x9 = .ok x10 →
      b.selectC x10 = .error e → notebookPipeline b t0 = .error e) ∧
    (∀ x1 x2 x3 x4 x5 x6 x7 x8 x9 x10 x11, b.asDataFrameC t0 = .ok x1 →
      b.mutateDatetimeC x1 = .ok x2 →
      b.rpy2pyC x2 = .ok x3 → b.filterC x3 = .ok x4 → b.py2rpyC x4 = .ok x5 →
      b.asTsibbleC x5 = .ok x6 → b.modelC x6 = .ok x7 → b.forecastC x7 = .ok x8 →
      b.hiloC x8 = .ok x9 → b.unpackHiloC x9 = .ok x10 → b.selectC x10 = .ok x11 →
      b.mutateDatetime2C x11 = .error e → notebookPipeline b t0 = .error e) ∧
    (∀ x1 x2 x3 x4 x5 x6 x7 x8 x9 x10 x11 x12, b.asDataFrameC t0 = .ok x1 →
      b.mutateDatetimeC x1 = .ok x2 →
      b.rpy2pyC x2 = .ok x3 → b.filterC x3 = .ok x4 → b.py2rpyC x4 = .ok x5 →
      b.asTsibbleC x5 = .ok x6 → b.modelC x6 = .ok x7 → b.forecastC x7 = .ok x8 →
      b.hiloC x8 = .ok x9 → b.unpackHiloC x9 = .ok x10 → b.selectC x10 = .ok x11 →
      b.mutateDatetime2C x11 = .ok x12 →
      b.rpy2py2C x12 = .error e → notebookPipeline b t0 = .error e) := by
  refine ⟨?_, ?_, ?_, ?_, ?_, ?_, ?_, ?_, ?_, ?_, ?_, ?_, ?_⟩ <;>
    · intros
      simp only [notebookPipeline, *, except_bind_ok, except_bind_error]

/-- Witness for C8: a bridge whose first call raises makes the pipeline
return that very error. -/
theorem C8_error_propagation_witness :
    notebookPipeline failBridge sampleTsibble = .error "RRuntimeError" :=
  (C8_error_propagation failBridge sampleTsibble "RRuntimeError").1 rfl

/-- C9 (counterexample): as stated, the claim that executing the notebook
writes no files and makes no network calls is false: the
`%pip install rpy2` cell downloads the package over the network and
installs it on disk. -/
theorem C9_counterexample : ¬ (∀ c ∈ notebookCells, c.effects = []) := by decide

/-- C9 (amended): apart from the dependency-installation cell
(`%pip install rpy2`, source line 43), executing the notebook writes no
files and makes no network calls; the pipeline cells only compute and
display in-memory values within the transient runtime session. -/
theorem C9_no_effects_outside_install :
    ∀ c ∈ notebookCells, c.title ≠ "pip_install_rpy2" → c.effects = [] := by decide

/-- Witness for C9 at the model-training cell. -/
theorem C9_no_effects_outside_install_witness :
    (⟨"train_models", ([] : List CellEffect)⟩ : NotebookCell).effects = [] :=
  C9_no_effects_outside_install ⟨"train_models", []⟩ (by decide) (by decide)

/-- C10: the pipeline is deterministic: two runs over the same input
dataset — whatever the ambient random seed or clock — produce identical
final forecast tables: same rows, in the same order, with equal values in
every column.  The pipeline never consults ambient state, and the
estimation oracle is a fixed function. -/
theorem C10_deterministic (fit : FitOracle) (t : Tsibble) (w1 w2 : World) :
    runNotebook fit t w1 = runNotebook fit t w2 := rfl

theorem quads_forecastRows (fit : FitOracle) (keys : List (String × String))
    (specs : List ModelSpec) (lastM : Nat) :
    (forecastRows fit keys specs lastM).map quadOf =
      expectedQuads keys (specs.map fun s => s.name) lastM := by
  unfold forecastRows keyRows seriesRows expectedQuads
  simp only [List.map_flatMap, List.flatMap_map, List.map_map]
  rfl

theorem expectedQuads_eq_product (keys : List (String × String))
    (names : List String) (lastM : Nat) :
    expectedQuads keys names lastM =
      (keys ×ˢ (names ×ˢ List.range horizonMonths)).map
        fun p => (p.1.1, p.1.2, p.2.1, TimeVal.ym (lastM + 1 + p.2.2)) := by
  unfold expectedQuads
  simp only [SProd.sprod, List.product, List.map_flatMap, List.flatMap_map,
    List.map_map]
  rfl

theorem expectedQuads_nodup (keys : List (String × String)) (names : List String)
    (lastM : Nat) (hk : keys.Nodup) (hn : names.Nodup) :
    (expectedQuads keys names lastM).Nodup := by
  rw [expectedQuads_eq_product]
  refine List.Nodup.map ?_ (hk.product (hn.product (List.nodup_range _)))
  intro p q hpq
  obtain ⟨⟨p1, p2⟩, p3, p4⟩ := p
  obtain ⟨⟨q1, q2⟩, q3, q4⟩ := q
  simp only [Prod.mk.injEq, TimeVal.ym.injEq] at hpq
  obtain ⟨h1, h2, h3, h4⟩ := hpq
  simp only [Prod.mk.injEq]
  exact ⟨⟨h1, h2⟩, h3, by omega⟩

theorem expectedQuads_length (keys : List (String × String)) (names : List String)
    (lastM : Nat) :
    (expectedQuads keys names lastM).length =
      keys.length * names.length * horizonMonths := by
  rw [expectedQuads_eq_product, List.length_map, List.length_product,
    List.length_product, List.length_range]
  ring

theorem sum_single {α : Type} (g : α → Nat) (a : α) :
    ∀ l : List α, l.Nodup → a ∈ l → (∀ b ∈ l, b ≠ a → g b = 0) →
      (l.map g).sum = g a := by
  intro l
  induction l with
  | nil => intro _ ha _; cases ha
  | cons x xs ih =>
    intro hnd ha hz
    rw [List.map_cons, List.sum_cons]
    rcases List.mem_cons.mp ha with heq | ha'
    · subst heq
      have hxs : (xs.map g).sum = 0 := by
        refine List.sum_eq_zero ?_
        intro v hv
        obtain ⟨b, hb, rfl⟩ := List.mem_map.mp hv
        refine hz b (List.mem_cons_of_mem _ hb) ?_
        intro he
        exact (List.nodup_cons.mp hnd).1 (he ▸ hb)
      omega
    · have hxa : x ≠ a := by
        intro he
        exact (List.nodup_cons.mp hnd).1 (he ▸ ha')
      rw [hz x (List.mem_cons_self x xs) hxa, Nat.zero_add]
      exact ih (List.nodup_cons.mp hnd).2 ha'
        fun b hb hne => hz b (List.mem_cons_of_mem _ hb) hne

theorem countP_series_eq (fit : FitOracle) (k : String × String) (s : ModelSpec)
    (lastM : Nat) (n : String) :
    List.countP (matchesKM k n) (seriesRows fit k s lastM) =
      if s.name = n then horizonMonths else 0 := by
  unfold seriesRows
  rw [List.countP_map]
  split
  · next h =>
    refine Eq.trans (List.countP_eq_length.mpr ?_) (List.length_range _)
    intro i hi
    simp [matchesKM, Function.comp, h]
  · next h =>
    refine List.countP_eq_zero.mpr ?_
    intro i hi
    simp [matchesKM, Function.comp, h]

theorem countP_keyRows_ne (fit : FitOracle) (kk k : String × String) (n : String)
    (specs : List ModelSpec) (lastM : Nat) (hne : kk ≠ k) :
    List.countP (matchesKM k n) (keyRows fit kk specs lastM) = 0 := by
  refine List.countP_eq_zero.mpr ?_
  intro r hr
  unfold keyRows at hr
  rw [List.mem_flatMap] at hr
  obtain ⟨s, hs, hr⟩ := hr
  unfold seriesRows at hr
  rw [List.mem_map] at hr
  obtain ⟨i, hi, rfl⟩ := hr
  simp only [matchesKM, Bool.and_eq_true, beq_iff_eq]
  intro hcon
  obtain ⟨⟨h1, h2⟩, h3⟩ := hcon
  exact hne (Prod.ext h1 h2)

theorem countP_keyRows_eq (fit : FitOracle) (k : String × String) (n : String)
    (lastM : Nat) (hn : n ∈ modelNames) :
    List.countP (matchesKM k n) (keyRows fit k pyModelSpecs lastM) =
      horizonMonths := by
  unfold keyRows
  rw [List.countP_flatMap]
  have hmap : List.map
        (List.countP (matchesKM k n) ∘ fun s => seriesRows fit k s lastM)
        pyModelSpecs =
      pyModelSpecs.map fun s => if s.name = n then horizonMonths else 0 :=
    List.map_congr_left fun s _ => countP_series_eq fit k s lastM n
  rw [hmap]
  simp only [modelNames, pyModelSpecs, List.map_cons, List.map_nil,
    List.mem_cons, List.not_mem_nil, or_false] at hn ⊢
  rcases hn with rfl | rfl | rfl <;> simp [horizonMonths]

theorem count_per_key_model (fit : FitOracle) (keys : List (String × String))
    (lastM : Nat) (k : String × String) (n : String)
    (hkn : keys.Nodup) (hk : k ∈ keys) (hn : n ∈ modelNames) :
    ((forecastRows fit keys pyModelSpecs lastM).filter (matchesKM k n)).length =
      horizonMonths := by
  rw [← List.countP_eq_length_filter]
  unfold forecastRows
  rw [List.countP_flatMap]
  have hz : ∀ b ∈ keys, b ≠ k →
      (List.countP (matchesKM k n) ∘ fun kk => keyRows fit kk pyModelSpecs lastM) b
        = 0 :=
    fun b _ hb => countP_keyRows_ne fit b k n pyModelSpecs lastM hb
  rw [sum_single _ k keys hkn hk hz]
  exact countP_keyRows_eq fit k n lastM hn

/-- C2 (counterexample): the final forecast table does not contain exactly
the six named columns: the forecast-period column `Month` is retained as a
seventh column by the time-series index (the notebook itself mutates
`Month` on the selected table at source line 129). -/
theorem C2_counterexample :
    ¬ (∀ c ∈ forecastPdfColumns, c ∈ sixSelectedColumns) := by decide

/-- C2 (amended): the final forecast table contains exactly seven columns —
the six named ones (region, industry category, model name, mean forecast,
95%-lower bound, 95%-upper bound) plus the forecast-period column `Month`
retained by the time-series index — with exactly one row per
`(State, Industry, model, forecast-period)` combination, for exactly 24
forecast periods (2 years of monthly data) per model per series. -/
theorem C2_forecast_schema (fit : FitOracle) (t : Tsibble) :
    ("Month" ∈ forecastPdfColumns ∧ "Month" ∉ sixSelectedColumns ∧
      forecastPdfColumns.Nodup ∧ forecastPdfColumns.length = 7 ∧
      ∀ c ∈ sixSelectedColumns, c ∈ forecastPdfColumns) ∧
    ((forecastOutput fit t).map quadOf).Nodup ∧
    (forecastOutput fit t).length =
      (keysOf t).length * pyModelSpecs.length * horizonMonths ∧
    ∀ k ∈ keysOf t, ∀ n ∈ modelNames,
      ((forecastOutput fit t).filter (matchesKM k n)).length = horizonMonths := by
  refine ⟨by decide, ?_, ?_, ?_⟩
  · unfold forecastOutput
    rw [quads_forecastRows]
    exact expectedQuads_nodup _ _ _ (List.nodup_dedup _) (by decide)
  · unfold forecastOutput
    have h1 : (forecastRows fit (keysOf t) pyModelSpecs (lastMonthOf t)).length =
        ((forecastRows fit (keysOf t) pyModelSpecs (lastMonthOf t)).map quadOf).length :=
      (List.length_map _ _).symm
    rw [h1, quads_forecastRows, expectedQuads_length, List.length_map]
  · intro k hk n hn
    exact count_per_key_model fit (keysOf t) (lastMonthOf t) k n
      (List.nodup_dedup _) hk hn

/-- Witness for C2 at a one-key table: the "ets" model contributes exactly
24 forecast rows. -/
theorem C2_forecast_schema_witness :
    ((forecastOutput constFit tinyT).filter
        (matchesKM ("Victoria", "Department stores") "ets")).length =
      horizonMonths :=
  (C2_forecast_schema constFit tinyT).2.2.2 ("Victoria", "Department stores")
    (by decide) "ets" (by decide)

/-- C4: for every row of the final forecast output table, the 95% lower
bound is at most the mean forecast, and the mean forecast is at most the
95% upper bound. -/
theorem C4_bound_ordering (fit : FitOracle) (t : Tsibble)
    (hsc : ∀ k n m, 0 ≤ (fit k n m).scale) :
    ∀ r ∈ forecastOutput fit t, r.lower95 ≤ r.mean ∧ r.mean ≤ r.upper95 := by
  intro r hr
  unfold forecastOutput forecastRows keyRows seriesRows at hr
  rw [List.mem_flatMap] at hr
  obtain ⟨k, hk, hr⟩ := hr
  rw [List.mem_flatMap] at hr
  obtain ⟨s, hs, hr⟩ := hr
  rw [List.mem_map] at hr
  obtain ⟨i, hi, rfl⟩ := hr
  have h0 : 0 ≤ z95 * (fit k s.name (lastMonthOf t + 1 + i)).scale :=
    mul_nonneg (by norm_num [z95]) (hsc k s.name _)
  simp only [hilo95]
  constructor
  · linarith
  · linarith

/-- Witness for C4 at the first forecast row of a one-key table under a
constant oracle. -/
theorem C4_bound_ordering_witness : rW.lower95 ≤ rW.mean ∧ rW.mean ≤ rW.upper95 :=
  C4_bound_ordering constFit tinyT (fun _ _ _ => by norm_num [constFit]) rW
    (by
      refine List.mem_flatMap.mpr ⟨("Victoria", "Department stores"), by decide, ?_⟩
      refine List.mem_flatMap.mpr ⟨⟨"ets", "ETS", "Turnover", .boxCox (3 / 10)⟩, ?_, ?_⟩
      · exact List.mem_cons_self _ _
      · exact List.mem_map.mpr ⟨0, by decide, rfl⟩)
